import Mathlib

/-!
Shallow embedding of `src/raw.imageio/rawoutput.cpp` (the OIIO DNG/raw
output plugin) for verification.

Modelling conventions:
  * The libtiff container library is external to the file under analysis, so a
    call into it is modelled as an emitted `TiffOp` event; the sequence of
    events an operation issues is returned alongside the operation's result.
    `applyOps` replays a trace onto an abstract `TiffFile` (a last-write-wins
    tag store plus a list of written rows), which lets us speak about the tag
    values the container holds after `open`.
  * `TIFFOpen` may fail at the operating-system level; that outcome is an input
    (`Option Handle`) to `RawOutput.open`. Likewise the success of
    `TIFFWriteScanline` is an input (`writeOk`) to `RawOutput.write_scanline`;
    the integer the library would return is recorded in the result so we can
    state how the code treats it.
  * `float` values are only ever copied and compared by this code (no
    arithmetic is performed on them), so they are modelled by `Rat`.
  * The C++ constructor `RawOutput() {}` leaves the raw pointer member
    `m_tif` uninitialized; `RawOutput.construct` therefore takes the
    indeterminate initial value of that member as a parameter.
  * `ImageOutput::to_native_scanline` lives in the host library, not in the
    file under analysis; `write_scanline` receives its output (`nativeData`)
    directly, together with an `aliased` flag standing for the pointer
    comparison `data == m_scratch.data()` inside `move_to_scratch`.
-/

/-- A (non-null) TIFF file handle returned by a successful `TIFFOpen`. -/
structure Handle where
  id : Nat
deriving DecidableEq, Repr

/-- The TIFF/DNG tags touched by `rawoutput.cpp`. -/
inductive TiffTag where
  | DNGVERSION
  | SUBFILETYPE
  | COMPRESSION
  | MAKE
  | MODEL
  | IMAGEWIDTH
  | IMAGELENGTH
  | BITSPERSAMPLE
  | ROWSPERSTRIP
  | ORIENTATION
  | PHOTOMETRIC
  | SAMPLESPERPIXEL
  | PLANARCONFIG
  | SAMPLEFORMAT
  | CFAREPEATPATTERNDIM
  | CFAPATTERN
  | UNIQUECAMERAMODEL
  | COLORMATRIX1
  | COLORMATRIX2
  | ASSHOTNEUTRAL
  | CFALAYOUT
  | CFAPLANECOLOR
  | ACTIVEAREA
deriving DecidableEq, Repr

/-- A value passed to `TIFFSetField`: C strings, integers, byte arrays,
short arrays, float arrays and uint32 arrays all occur in the source. -/
inductive TagValue where
  | str : String → TagValue
  | int : Int → TagValue
  | bytes : List Nat → TagValue
  | shorts : List Int → TagValue
  | floats : List Rat → TagValue
  | uints : List Nat → TagValue
deriving DecidableEq, Repr

/-- One call into libtiff made by the plugin. -/
inductive TiffOp where
  | setField : TiffTag → TagValue → TiffOp
  | writeRow : Int → List Nat → TiffOp
  | closeFile : Handle → TiffOp
deriving DecidableEq, Repr

/-- Abstract state of the TIFF container: tags (newest write first) and the
rows written so far. -/
structure TiffFile where
  tags : List (TiffTag × TagValue)
  rows : List (Int × List Nat)
deriving DecidableEq, Repr

def TiffFile.empty : TiffFile := { tags := [], rows := [] }

def applyOp (f : TiffFile) : TiffOp → TiffFile
  | TiffOp.setField t v => { f with tags := (t, v) :: f.tags }
  | TiffOp.writeRow y d => { f with rows := f.rows ++ [(y, d)] }
  | TiffOp.closeFile _ => f

def applyOps (f : TiffFile) : List TiffOp → TiffFile
  | [] => f
  | op :: ops => applyOps (applyOp f op) ops

/-- Look up the most recently written value of a tag. -/
def lookupTag : List (TiffTag × TagValue) → TiffTag → Option TagValue
  | [], _ => none
  | (t, v) :: rest, q => if t = q then some v else lookupTag rest q

/-- The subset of `OIIO::TypeDesc` basetypes relevant here. -/
inductive TypeDesc where
  | UNKNOWN
  | UINT8
  | INT8
  | UINT16
  | INT16
  | UINT32
  | INT32
  | HALF
  | FLOAT
  | DOUBLE
deriving DecidableEq, Repr

/-- Bytes per sample, as `TypeDesc::size()`. -/
def TypeDesc.size : TypeDesc → Nat
  | TypeDesc.UNKNOWN => 0
  | TypeDesc.UINT8 => 1
  | TypeDesc.INT8 => 1
  | TypeDesc.UINT16 => 2
  | TypeDesc.INT16 => 2
  | TypeDesc.UINT32 => 4
  | TypeDesc.INT32 => 4
  | TypeDesc.HALF => 2
  | TypeDesc.FLOAT => 4
  | TypeDesc.DOUBLE => 8

/-- Model of `OIIO::ImageSpec`, restricted to the fields and attributes
`rawoutput.cpp` consults.  The `raw:*` attributes are modelled as optional
fields: `none` means "no attribute of that name and type is present"
(`find_attribute` filters by type, so a wrongly-typed attribute counts as
absent). -/
structure ImageSpec where
  width : Int
  height : Int
  full_x : Int
  full_y : Int
  full_width : Int
  full_height : Int
  nchannels : Int
  format : TypeDesc
  filterPattern : Option String
  colorMatrix1 : Option (List Rat)
  colorMatrix2 : Option (List Rat)
  asShotNeutral : Option (List Rat)
deriving DecidableEq, Repr

/-- A default-constructed `ImageSpec()`. -/
def ImageSpec.mkDefault : ImageSpec :=
  { width := 0, height := 0, full_x := 0, full_y := 0,
    full_width := 0, full_height := 0, nchannels := 0,
    format := TypeDesc.UNKNOWN,
    filterPattern := none, colorMatrix1 := none,
    colorMatrix2 := none, asShotNeutral := none }

/-- Model of `ImageOutput::OpenMode`. -/
inductive OpenMode where
  | Create
  | AppendSubimage
  | AppendMIPLevel
deriving DecidableEq, Repr

/-- The fopen-style mode string handed to `TIFFOpen`:
`mode == AppendSubimage ? "a" : "w"`. -/
def openModeString (mode : OpenMode) : String :=
  if mode = OpenMode.AppendSubimage then "a" else "w"

/-- Constant `COMPRESSION_NONE` from tiff.h. -/
def COMPRESSION_NONE : Int := 1
/-- Constant `ORIENTATION_TOPLEFT` from tiff.h. -/
def ORIENTATION_TOPLEFT : Int := 1
/-- Constant `PHOTOMETRIC_CFA` from tiff.h. -/
def PHOTOMETRIC_CFA : Int := 32803
/-- Constant `PLANARCONFIG_CONTIG` from tiff.h. -/
def PLANARCONFIG_CONTIG : Int := 1
/-- Constant `SAMPLEFORMAT_UINT` from tiff.h. -/
def SAMPLEFORMAT_UINT : Int := 1

/-- Conversion of a C `int` to `uint32_t` (wraps modulo 2^32). -/
def u32 (n : Int) : Nat := (n % 4294967296).toNat

/-- Conversion of a C `int` to `size_t` (wraps modulo 2^64). -/
def usize (n : Int) : Nat := (n % 18446744073709551616).toNat

/-- The 3x3 identity, row-major: the in-class initializer of
`m_colormatrix1` and `m_colormatrix2`. -/
def identity9 : List Rat := [1, 0, 0, 0, 1, 0, 0, 0, 1]

/-- The in-class initializer of `m_asShotNeutral`. -/
def neutral3 : List Rat := [1, 1, 1]

/-- The state of a `RawOutput` object.  `m_spec` is the working copy of the
image spec inherited from `ImageOutput`. -/
structure RawOutput where
  m_tif : Option Handle
  m_spec : ImageSpec
  m_scratch : List Nat
  m_bayerPatternDimensions : List Int
  m_colormatrix1 : List Rat
  m_colormatrix2 : List Rat
  m_asShotNeutral : List Rat
deriving DecidableEq, Repr

/-- The constructor `RawOutput() {}`.  Every member with an in-class
initializer gets it; the raw pointer `m_tif` has none, so its initial value
is indeterminate — it is supplied as the parameter `indeterminateTif`
(`none` models the lucky case where the stack memory happens to read as
null, `some h` the case where it reads as an arbitrary non-null pointer). -/
def RawOutput.construct (indeterminateTif : Option Handle) : RawOutput :=
  { m_tif := indeterminateTif
    m_spec := ImageSpec.mkDefault
    m_scratch := []
    m_bayerPatternDimensions := [2, 2]
    m_colormatrix1 := identity9
    m_colormatrix2 := identity9
    m_asShotNeutral := neutral3 }

/-- The per-character map used inside `filter_str_to_cfapattern`
(`channel_to_cfa_index` lambda): any character outside the table falls back
to 0. -/
def channel_to_cfa_index (c : Char) : Nat :=
  if c = 'R' then 0
  else if c = 'G' then 1
  else if c = 'B' then 2
  else if c = 'C' then 3
  else if c = 'M' then 4
  else if c = 'Y' then 5
  else if c = 'W' then 6
  else 0

/-- Translation of `filter_str_to_cfapattern`: starts from four zero bytes; a string whose
size is not 4 is returned as that zero pattern, otherwise each of the four
characters is encoded with `channel_to_cfa_index`. -/
def filter_str_to_cfapattern (filter : List Char) : List Nat :=
  if filter.length ≠ 4 then List.replicate 4 0
  else filter.map channel_to_cfa_index

/-- Translation of `RawOutput::move_to_scratch(data, nbytes)`: copy `nbytes` bytes into
`m_scratch` unless `data` already points at `m_scratch`'s storage
(`aliased`) and the scratch is non-empty; returns the new scratch
contents. -/
def move_to_scratch (scratch : List Nat) (data : List Nat) (nbytes : Nat)
    (aliased : Bool) : List Nat :=
  if scratch.isEmpty || !aliased then data.take nbytes else scratch

/-- Result of `RawOutput::open`: the new object state, the returned bool,
the message recorded by `errorf` (if any), the libtiff calls issued, the
mode string passed to `TIFFOpen`, and the caller's spec as it stands after
the call (the C++ takes it by const reference and never writes through
it). -/
structure OpenResult where
  self : RawOutput
  ret : Bool
  err : Option String
  ops : List TiffOp
  tiffOpenMode : String
  callerSpec : ImageSpec
deriving Repr

/-- Translation of `RawOutput::open(name, userspec, mode)`.  `tiffOpenResult` is the value
`TIFFOpen` returns in this run (`none` = null = failure). -/
def RawOutput.open (self : RawOutput) (name : String) (userspec : ImageSpec)
    (mode : OpenMode) (tiffOpenResult : Option Handle) : OpenResult :=
  let self1 : RawOutput := { self with m_spec := userspec }
  match tiffOpenResult with
  | none =>
      { self := { self1 with m_tif := none }
        ret := false
        err := some ("Could not open \"" ++ name ++ "\"")
        ops := []
        tiffOpenMode := openModeString mode
        callerSpec := userspec }
  | some h =>
      let self2 : RawOutput := { self1 with m_tif := some h }
      let spec : ImageSpec :=
        { self2.m_spec with nchannels := 1, format := TypeDesc.UINT16 }
      let self3 : RawOutput := { self2 with m_spec := spec }
      let cfapattern : List Nat :=
        filter_str_to_cfapattern (spec.filterPattern.getD "").data
      let cm1 : List Rat := spec.colorMatrix1.getD self3.m_colormatrix1
      let self4 : RawOutput := { self3 with m_colormatrix1 := cm1 }
      let cm2 : List Rat := spec.colorMatrix2.getD self4.m_colormatrix2
      let self5 : RawOutput := { self4 with m_colormatrix2 := cm2 }
      let cm2ops : List TiffOp :=
        (spec.colorMatrix2.map fun m =>
          [TiffOp.setField TiffTag.COLORMATRIX2 (TagValue.floats m)]).getD []
      let neutral : List Rat := spec.asShotNeutral.getD self5.m_asShotNeutral
      let self6 : RawOutput := { self5 with m_asShotNeutral := neutral }
      let activeArea : List Nat :=
        [u32 spec.full_y, u32 spec.full_x,
         u32 (spec.full_y + spec.full_height),
         u32 (spec.full_x + spec.full_width)]
      { self := self6
        ret := true
        err := none
        ops :=
          [TiffOp.setField TiffTag.DNGVERSION (TagValue.bytes [1, 1, 0, 0]),
           TiffOp.setField TiffTag.SUBFILETYPE (TagValue.int 0),
           TiffOp.setField TiffTag.COMPRESSION (TagValue.int COMPRESSION_NONE),
           TiffOp.setField TiffTag.MAKE (TagValue.str ""),
           TiffOp.setField TiffTag.MODEL (TagValue.str ""),
           TiffOp.setField TiffTag.IMAGEWIDTH (TagValue.int spec.width),
           TiffOp.setField TiffTag.IMAGELENGTH (TagValue.int spec.height),
           TiffOp.setField TiffTag.BITSPERSAMPLE (TagValue.int 16),
           TiffOp.setField TiffTag.ROWSPERSTRIP (TagValue.int 1),
           TiffOp.setField TiffTag.ORIENTATION (TagValue.int ORIENTATION_TOPLEFT),
           TiffOp.setField TiffTag.PHOTOMETRIC (TagValue.int PHOTOMETRIC_CFA),
           TiffOp.setField TiffTag.SAMPLESPERPIXEL (TagValue.int 1),
           TiffOp.setField TiffTag.PLANARCONFIG (TagValue.int PLANARCONFIG_CONTIG),
           TiffOp.setField TiffTag.SAMPLEFORMAT (TagValue.int SAMPLEFORMAT_UINT),
           TiffOp.setField TiffTag.CFAREPEATPATTERNDIM
             (TagValue.shorts self6.m_bayerPatternDimensions),
           TiffOp.setField TiffTag.CFAPATTERN (TagValue.bytes cfapattern),
           TiffOp.setField TiffTag.MAKE (TagValue.str "DNG"),
           TiffOp.setField TiffTag.UNIQUECAMERAMODEL (TagValue.str "DNG"),
           TiffOp.setField TiffTag.COLORMATRIX1 (TagValue.floats cm1)]
          ++ cm2ops ++
          [TiffOp.setField TiffTag.ASSHOTNEUTRAL (TagValue.floats neutral),
           TiffOp.setField TiffTag.CFALAYOUT (TagValue.int 1),
           TiffOp.setField TiffTag.CFAPLANECOLOR (TagValue.bytes [0, 1, 2]),
           TiffOp.setField TiffTag.ACTIVEAREA (TagValue.uints activeArea)]
        tiffOpenMode := openModeString mode
        callerSpec := userspec }

/-- Result of `RawOutput::close`. -/
structure CloseResult where
  self : RawOutput
  ret : Bool
  ops : List TiffOp
deriving Repr

/-- Translation of `RawOutput::close()`: if `m_tif` is null do nothing, otherwise
`TIFFClose(m_tif)` and null the member; returns true in both cases. -/
def RawOutput.close (self : RawOutput) : CloseResult :=
  match self.m_tif with
  | none => { self := self, ret := true, ops := [] }
  | some h =>
      { self := { self with m_tif := none }
        ret := true
        ops := [TiffOp.closeFile h] }

/-- Result of `RawOutput::write_scanline`: the new object state, the bool
the function returns, the (discarded) integer `TIFFWriteScanline` returned,
and the libtiff calls issued. -/
structure WriteResult where
  self : RawOutput
  ret : Bool
  tiffWriteResult : Int
  ops : List TiffOp
deriving Repr

/-- Translation of `RawOutput::write_scanline(y, z, format, data, xstride)`.
`auto_stride` only resolves the local `xstride` argument, so it has no
modelled effect.  `nativeData` is the row as returned by the host
library's `to_native_scanline` (already converted to the working spec's
native format); `aliased` tells whether that pointer already aliases
`m_scratch`; `writeOk` tells whether `TIFFWriteScanline` succeeds.  The
source discards `TIFFWriteScanline`'s return value and returns true
unconditionally. -/
def RawOutput.write_scanline (self : RawOutput) (y z : Int)
    (format : TypeDesc) (nativeData : List Nat) (aliased : Bool)
    (writeOk : Bool) : WriteResult :=
  let scanline_vals : Nat := usize self.m_spec.width
  let nbytes : Nat := scanline_vals * self.m_spec.format.size
  let scr : List Nat := move_to_scratch self.m_scratch nativeData nbytes aliased
  { self := { self with m_scratch := scr }
    ret := true
    tiffWriteResult := if writeOk then 1 else -1
    ops := [TiffOp.writeRow y scr] }

/-- One host-driven call on an already-open session. -/
inductive SessionCall where
  | writeCall : Int → Int → TypeDesc → List Nat → Bool → Bool → SessionCall
  | closeCall : SessionCall
deriving Repr

/-- Apply one session call to the object state. -/
def applyCall (self : RawOutput) : SessionCall → RawOutput
  | SessionCall.writeCall y z fmt d al ok =>
      (self.write_scanline y z fmt d al ok).self
  | SessionCall.closeCall => self.close.self

/-- Run a sequence of session calls. -/
def runCalls (self : RawOutput) : List SessionCall → RawOutput
  | [] => self
  | c :: cs => runCalls (applyCall self c) cs

/-! ## The tag store after a successful `open` -/

/-- The tag store of the container after replaying a successful `open`'s
libtiff calls onto an empty file. -/
def tagsAfterOpen (self : RawOutput) (name : String) (userspec : ImageSpec)
    (mode : OpenMode) (h : Handle) : List (TiffTag × TagValue) :=
  (applyOps TiffFile.empty (self.open name userspec mode (some h)).ops).tags

/-! ## The spec's character table (refinement reference) -/

/-- Modelled from the spec: the character table of section 3,
Red=0, Green=1, Blue=2, Cyan=3, Magenta=4, Yellow=5, White=6.  A character
the table does not cover is sent to the out-of-range marker 7, so agreement
with the code's encoder is only asserted where the table speaks. -/
def spec_cfa_code : Char → Nat
  | 'R' => 0
  | 'G' => 1
  | 'B' => 2
  | 'C' => 3
  | 'M' => 4
  | 'Y' => 5
  | 'W' => 6
  | _ => 7

/-- The code's per-character encoder agrees with the spec table on covered
characters and falls back to 0 elsewhere. -/
theorem channel_to_cfa_index_eq_spec (c : Char) :
    channel_to_cfa_index c =
      if c ∈ ['R', 'G', 'B', 'C', 'M', 'Y', 'W'] then spec_cfa_code c
      else 0 := by
  simp only [channel_to_cfa_index, spec_cfa_code, List.mem_cons,
    List.not_mem_nil, or_false]
  split_ifs <;> simp_all

/-- C4: for every 4-character filter string over {R,G,B,C,M,Y,W} the encoded
CFA pattern is the character-by-character spec-table mapping, and for every
string whose length is not 4 the encoded pattern is four zero bytes. -/
theorem cfapattern_matches_spec_table :
    (∀ l : List Char, l.length = 4 →
        (∀ c ∈ l, c ∈ ['R', 'G', 'B', 'C', 'M', 'Y', 'W']) →
        filter_str_to_cfapattern l = l.map spec_cfa_code) ∧
    (∀ l : List Char, l.length ≠ 4 →
        filter_str_to_cfapattern l = [0, 0, 0, 0]) := by
  constructor
  · intro l hlen hvalid
    simp only [filter_str_to_cfapattern]
    rw [if_neg (by simp [hlen])]
    refine List.map_congr_left fun c hc => ?_
    rw [channel_to_cfa_index_eq_spec, if_pos (hvalid c hc)]
  · intro l hlen
    simp only [filter_str_to_cfapattern, if_pos hlen]
    rfl

/-- Witness for C4 at the concrete inputs "RGGB" and "RG". -/
theorem cfapattern_matches_spec_table_witness :
    filter_str_to_cfapattern ['R', 'G', 'G', 'B']
        = ['R', 'G', 'G', 'B'].map spec_cfa_code ∧
    filter_str_to_cfapattern ['R', 'G'] = [0, 0, 0, 0] :=
  ⟨cfapattern_matches_spec_table.1 _ (by decide) (by decide),
   cfapattern_matches_spec_table.2 _ (by decide)⟩

/-- C10: the encoder is total (always exactly 4 bytes) and per-character
lenient: on a length-4 input, characters outside the table encode to 0 and
the rest encode by the table. -/
theorem cfapattern_total_and_lenient :
    (∀ l : List Char, (filter_str_to_cfapattern l).length = 4) ∧
    (∀ l : List Char, l.length = 4 →
        filter_str_to_cfapattern l =
          l.map fun c =>
            if c ∈ ['R', 'G', 'B', 'C', 'M', 'Y', 'W'] then spec_cfa_code c
            else 0) := by
  constructor
  · intro l
    by_cases hlen : l.length = 4
    · simp [filter_str_to_cfapattern, hlen]
    · simp [filter_str_to_cfapattern, hlen]
  · intro l hlen
    simp only [filter_str_to_cfapattern]
    rw [if_neg (by simp [hlen])]
    exact List.map_congr_left fun c _ => channel_to_cfa_index_eq_spec c
/-- Witness for C10 at the concrete input "XGqB" (two characters outside
the table). -/
theorem cfapattern_total_and_lenient_witness :
    filter_str_to_cfapattern ['X', 'G', 'q', 'B'] =
      ['X', 'G', 'q', 'B'].map fun c =>
        if c ∈ ['R', 'G', 'B', 'C', 'M', 'Y', 'W'] then spec_cfa_code c
        else 0 :=
  cfapattern_total_and_lenient.2 _ (by decide)

/-! ## Lifecycle claims -/

/-- C8: when `TIFFOpen` fails, `open` returns false, records a descriptive
error message, and issues no libtiff call at all — in particular no tag is
written. -/
theorem open_failure_writes_no_tags (self : RawOutput) (name : String)
    (userspec : ImageSpec) (mode : OpenMode) :
    (self.open name userspec mode none).ret = false ∧
    (self.open name userspec mode none).err
        = some ("Could not open \"" ++ name ++ "\"") ∧
    (self.open name userspec mode none).ops = [] :=
  ⟨rfl, rfl, rfl⟩

/-- C9: `open` never writes through the caller's spec — on both the failure
and the success path the caller's object is returned unchanged — and all
normalization happens on the private working copy, which ends up as the
caller's spec with `nchannels` forced to 1 and the format forced to
UINT16. -/
theorem open_copies_and_never_mutates_caller_spec (self : RawOutput)
    (name : String) (userspec : ImageSpec) (mode : OpenMode) (h : Handle) :
    (self.open name userspec mode none).callerSpec = userspec ∧
    (self.open name userspec mode (some h)).callerSpec = userspec ∧
    (self.open name userspec mode (some h)).self.m_spec
        = { userspec with nchannels := 1, format := TypeDesc.UINT16 } :=
  ⟨rfl, rfl, rfl⟩

/-- Neither `write_scanline` nor `close` touches the working spec. -/
theorem applyCall_preserves_spec (self : RawOutput) (c : SessionCall) :
    (applyCall self c).m_spec = self.m_spec := by
  cases c with
  | writeCall y z fmt d al ok => rfl
  | closeCall =>
      cases h : self.m_tif with
      | none => simp [applyCall, RawOutput.close, h]
      | some hh => simp [applyCall, RawOutput.close, h]

/-- The working spec is invariant under any sequence of session calls. -/
theorem runCalls_preserves_spec (cs : List SessionCall) (self : RawOutput) :
    (runCalls self cs).m_spec = self.m_spec := by
  induction cs generalizing self with
  | nil => rfl
  | cons c cs ih => rw [runCalls, ih, applyCall_preserves_spec]

/-- C7: after a successful `open` the working spec has `nchannels = 1` and
format UINT16 whatever the caller asked for, and these stay fixed under any
subsequent sequence of `write_scanline`/`close` calls. -/
theorem open_forces_uint16_single_channel (self : RawOutput) (name : String)
    (userspec : ImageSpec) (mode : OpenMode) (h : Handle)
    (calls : List SessionCall) :
    ((self.open name userspec mode (some h)).self.m_spec.nchannels = 1 ∧
      (self.open name userspec mode (some h)).self.m_spec.format
        = TypeDesc.UINT16) ∧
    ((runCalls (self.open name userspec mode (some h)).self calls).m_spec.nchannels
        = 1 ∧
      (runCalls (self.open name userspec mode (some h)).self calls).m_spec.format
        = TypeDesc.UINT16) := by
  refine ⟨⟨rfl, rfl⟩, ?_⟩
  rw [runCalls_preserves_spec]
  exact ⟨rfl, rfl⟩

/-- C1 (code bug): even when the underlying `TIFFWriteScanline` fails
(returns -1), `write_scanline` discards that result and reports success; it
issues exactly one row write (no retry). -/
theorem write_scanline_reports_success_despite_failed_write
    (self : RawOutput) (y z : Int) (fmt : TypeDesc) (d : List Nat)
    (al : Bool) :
    (self.write_scanline y z fmt d al false).ret = true ∧
    (self.write_scanline y z fmt d al false).tiffWriteResult = -1 ∧
    (self.write_scanline y z fmt d al false).ops.length = 1 :=
  ⟨rfl, rfl, rfl⟩

/-- C2 (code bug): on a freshly constructed session whose uninitialized
`m_tif` happens to read as a non-null pointer, `close` passes that
indeterminate pointer to `TIFFClose` — a side effect on a handle that was
never opened (undefined behavior in the C++).  The double-close half of the
claim does hold: a second `close` right after a `close` always returns true
and issues no libtiff call. -/
theorem close_fresh_construct_side_effect :
    ((RawOutput.construct (some ⟨37⟩)).close).ret = true ∧
    ((RawOutput.construct (some ⟨37⟩)).close).ops
        = [TiffOp.closeFile ⟨37⟩] ∧
    (∀ s : RawOutput, ((s.close).self.close).ret = true ∧
      ((s.close).self.close).ops = []) := by
  refine ⟨rfl, rfl, fun s => ?_⟩
  cases h : s.m_tif with
  | none => simp [RawOutput.close, h]
  | some hh => simp [RawOutput.close, h]

/-! ## Tag-value claims -/

/-- C3 counterexample: after a successful `open` on a concrete session, the
MODEL tag holds the empty string, not "DNG" — the second "DNG" write goes to
the distinct UNIQUECAMERAMODEL tag. -/
theorem open_model_tag_stays_empty_counterexample :
    lookupTag
        (tagsAfterOpen (RawOutput.construct none) "cx.dng" ImageSpec.mkDefault
          OpenMode.Create ⟨1⟩) TiffTag.MODEL
      = some (TagValue.str "") ∧
    some (TagValue.str "") ≠ some (TagValue.str "DNG") :=
  ⟨rfl, by decide⟩

/-- C3 amended: `open` first writes both MAKE and MODEL as empty strings,
then overwrites MAKE with "DNG" and writes the separate UNIQUECAMERAMODEL
tag as "DNG"; afterwards MAKE holds "DNG", MODEL holds the empty string and
UNIQUECAMERAMODEL holds "DNG". -/
theorem open_make_dng_model_empty (self : RawOutput) (name : String)
    (userspec : ImageSpec) (mode : OpenMode) (h : Handle) :
    lookupTag (tagsAfterOpen self name userspec mode h) TiffTag.MAKE
        = some (TagValue.str "DNG") ∧
    lookupTag (tagsAfterOpen self name userspec mode h) TiffTag.MODEL
        = some (TagValue.str "") ∧
    lookupTag (tagsAfterOpen self name userspec mode h) TiffTag.UNIQUECAMERAMODEL
        = some (TagValue.str "DNG") ∧
    TiffOp.setField TiffTag.MAKE (TagValue.str "")
        ∈ (self.open name userspec mode (some h)).ops ∧
    TiffOp.setField TiffTag.MODEL (TagValue.str "")
        ∈ (self.open name userspec mode (some h)).ops := by
  cases hc2 : userspec.colorMatrix2 with
  | none =>
      simp [tagsAfterOpen, RawOutput.open, applyOps, applyOp, lookupTag, hc2]
  | some m =>
      simp [tagsAfterOpen, RawOutput.open, applyOps, applyOp, lookupTag, hc2]

/-- C5: the COLORMATRIX2 tag is written exactly when the caller supplied a
`raw:ColorMatrix2` attribute, and then with exactly the caller's nine
values; with no attribute, the output container carries no such tag. -/
theorem open_colormatrix2_written_iff_supplied (self : RawOutput)
    (name : String) (userspec : ImageSpec) (mode : OpenMode) (h : Handle) :
    (userspec.colorMatrix2 = none →
      lookupTag (tagsAfterOpen self name userspec mode h) TiffTag.COLORMATRIX2
        = none) ∧
    (∀ m : List Rat, userspec.colorMatrix2 = some m →
      lookupTag (tagsAfterOpen self name userspec mode h) TiffTag.COLORMATRIX2
        = some (TagValue.floats m)) := by
  constructor
  · intro hc2
    simp [tagsAfterOpen, RawOutput.open, applyOps, applyOp, lookupTag, hc2]
  · intro m hc2
    simp [tagsAfterOpen, RawOutput.open, applyOps, applyOp, lookupTag, hc2]

/-- Witness for C5: the absent case and a present case with a concrete
matrix. -/
theorem open_colormatrix2_witness :
    lookupTag
        (tagsAfterOpen (RawOutput.construct none) "a.dng" ImageSpec.mkDefault
          OpenMode.Create ⟨1⟩) TiffTag.COLORMATRIX2 = none ∧
    lookupTag
        (tagsAfterOpen (RawOutput.construct none) "a.dng"
          { ImageSpec.mkDefault with
              colorMatrix2 := some [1, 2, 3, 4, 5, 6, 7, 8, 9] }
          OpenMode.Create ⟨1⟩) TiffTag.COLORMATRIX2
      = some (TagValue.floats [1, 2, 3, 4, 5, 6, 7, 8, 9]) :=
  ⟨(open_colormatrix2_written_iff_supplied (RawOutput.construct none) "a.dng"
      ImageSpec.mkDefault OpenMode.Create ⟨1⟩).1 rfl,
   (open_colormatrix2_written_iff_supplied (RawOutput.construct none) "a.dng"
      { ImageSpec.mkDefault with
          colorMatrix2 := some [1, 2, 3, 4, 5, 6, 7, 8, 9] }
      OpenMode.Create ⟨1⟩).2 _ rfl⟩

/-- C6: on a session whose calibration members still hold their in-class
defaults, opening with a spec that carries neither `raw:ColorMatrix1` nor
`raw:asShotNeutral` succeeds without error, writes COLORMATRIX1 as the 3x3
identity, and writes ASSHOTNEUTRAL as {1,1,1}. -/
theorem open_missing_calibration_uses_defaults (self : RawOutput)
    (name : String) (userspec : ImageSpec) (mode : OpenMode) (h : Handle)
    (hm1 : self.m_colormatrix1 = identity9)
    (hn : self.m_asShotNeutral = neutral3)
    (hc1 : userspec.colorMatrix1 = none)
    (ha : userspec.asShotNeutral = none) :
    (self.open name userspec mode (some h)).ret = true ∧
    (self.open name userspec mode (some h)).err = none ∧
    lookupTag (tagsAfterOpen self name userspec mode h) TiffTag.COLORMATRIX1
        = some (TagValue.floats identity9) ∧
    lookupTag (tagsAfterOpen self name userspec mode h) TiffTag.ASSHOTNEUTRAL
        = some (TagValue.floats neutral3) := by
  refine ⟨rfl, rfl, ?_, ?_⟩ <;>
  · cases hc2 : userspec.colorMatrix2 <;>
      simp [tagsAfterOpen, RawOutput.open, applyOps, applyOp, lookupTag,
        hc1, ha, hc2, hm1, hn]

/-- Witness for C6 at a fresh session and a default spec. -/
theorem open_missing_calibration_witness :
    ((RawOutput.construct none).open "w.dng" ImageSpec.mkDefault
        OpenMode.Create (some ⟨1⟩)).ret = true ∧
    lookupTag
        (tagsAfterOpen (RawOutput.construct none) "w.dng" ImageSpec.mkDefault
          OpenMode.Create ⟨1⟩) TiffTag.COLORMATRIX1
      = some (TagValue.floats identity9) :=
  ⟨(open_missing_calibration_uses_defaults (RawOutput.construct none) "w.dng"
      ImageSpec.mkDefault OpenMode.Create ⟨1⟩ rfl rfl rfl rfl).1,
   (open_missing_calibration_uses_defaults (RawOutput.construct none) "w.dng"
      ImageSpec.mkDefault OpenMode.Create ⟨1⟩ rfl rfl rfl rfl).2.2.1⟩
